import Mathlib

/-!
Shallow embedding of the gym-progress-tracker backend
(`src/backend/server.js`): a workout-logging HTTP service with
token-authenticated, per-user CRUD on a `workouts` table and
registration / login against a `users` table.

Request bodies are JSON, and the handlers test JavaScript truthiness of
fields (`if (!username) ...`) and `Array.isArray`, so we embed a small
JavaScript-value type.  The PostgreSQL store is embedded as explicit
state: lists of user rows and workout rows plus the `SERIAL` counters.
`bcrypt` hashing/verification and `jwt` signing/verification are
external libraries; handlers are parameterized over them.
-/

/-- A JavaScript value as seen by the route handlers: JSON values plus
`undefined` (a field read off a parsed body object is `undefined` when
the key is absent). -/
inductive JSValue where
  | undefined : JSValue
  | null : JSValue
  | bool : Bool → JSValue
  | num : Int → JSValue
  | str : String → JSValue
  | arr : List JSValue → JSValue
  | obj : List (String × JSValue) → JSValue
deriving Repr

/-- JavaScript truthiness, as tested by `if (!x)`: `undefined`, `null`,
`false`, `0` and `""` are falsy; any object or array is truthy.
(`NaN`, the remaining falsy value, does not arise: no handler computes
with floats.) -/
def JSValue.truthy : JSValue → Bool
  | .undefined => false
  | .null => false
  | .bool b => b
  | .num n => n != 0
  | .str s => s ≠ ""
  | .arr _ => true
  | .obj _ => true

/-- `Array.isArray`. -/
def JSValue.isArray : JSValue → Bool
  | .arr _ => true
  | _ => false

/-- Property access `body.field` on a parsed request body: `undefined`
when the receiver is not an object or the key is absent. -/
def JSValue.getField : JSValue → String → JSValue
  | .obj fs, k =>
    match fs.find? (fun p => p.1 == k) with
    | some p => p.2
    | none => .undefined
  | _, _ => .undefined

/-- String escaping for `JSON.stringify` (quote and backslash; control
characters do not arise in the modelled inputs). -/
def escapeJson (s : String) : String :=
  s.toList.foldl
    (fun acc c =>
      acc ++ (if c = '"' then "\\\"" else if c = '\\' then "\\\\" else String.singleton c))
    ""

mutual
/-- `JSON.stringify`.  The handlers only apply it under an
`Array.isArray` guard, where `undefined` cannot occur at top level;
inside arrays JavaScript serializes `undefined` as `null`. -/
def jsonStringify : JSValue → String
  | .undefined => "null"
  | .null => "null"
  | .bool b => if b then "true" else "false"
  | .num n => toString n
  | .str s => "\"" ++ escapeJson s ++ "\""
  | .arr xs => "[" ++ jsonStringifyElems xs ++ "]"
  | .obj fs => "\x7b" ++ jsonStringifyFields fs ++ "\x7d"

def jsonStringifyElems : List JSValue → String
  | [] => ""
  | [x] => jsonStringify x
  | x :: xs => jsonStringify x ++ "," ++ jsonStringifyElems xs

def jsonStringifyFields : List (String × JSValue) → String
  | [] => ""
  | [p] => "\"" ++ escapeJson p.1 ++ "\":" ++ jsonStringify p.2
  | p :: ps => "\"" ++ escapeJson p.1 ++ "\":" ++ jsonStringify p.2 ++ "," ++ jsonStringifyFields ps
end

/-- The text a JavaScript value becomes when passed as a query parameter
into a `VARCHAR` column (node-postgres conversion): `undefined` and
`null` become SQL `NULL` (`none`); strings pass through verbatim; other
values are serialized to text. -/
def JSValue.toSqlText : JSValue → Option String
  | .undefined => none
  | .null => none
  | .bool b => some (if b then "true" else "false")
  | .num n => some (toString n)
  | .str s => some s
  | .arr xs => some (jsonStringify (.arr xs))
  | .obj fs => some (jsonStringify (.obj fs))

/-- A row of the `users` table
(`id SERIAL, username UNIQUE NOT NULL, email UNIQUE NOT NULL, password_hash NOT NULL`). -/
structure UserRow where
  id : Nat
  username : String
  email : String
  password_hash : String
deriving Repr, DecidableEq

/-- A row of the `workouts` table
(`id SERIAL, user_id REFERENCES users, exercise_id NOT NULL,
exercise_name NOT NULL, sets_data NOT NULL, workout_timestamp VARCHAR(50) NOT NULL`). -/
structure WorkoutRow where
  id : Nat
  user_id : Nat
  exercise_id : String
  exercise_name : String
  sets_data : String
  workout_timestamp : String
deriving Repr, DecidableEq

/-- The database state: the two tables plus their `SERIAL` id counters. -/
structure DB where
  users : List UserRow
  workouts : List WorkoutRow
  nextUserId : Nat
  nextWorkoutId : Nat
deriving Repr, DecidableEq

/-- An HTTP response: status code and JSON body. -/
structure Response where
  status : Nat
  body : JSValue
deriving Repr

/-- `res.status(s).json({error: msg})`. -/
def errorBody (msg : String) : JSValue := .obj [("error", .str msg)]

/-- `SELECT * FROM users WHERE email = $1` (first match; a SQL `NULL`
parameter matches no row). -/
def findUserByEmail (db : DB) (email : Option String) : Option UserRow :=
  match email with
  | none => none
  | some e => db.users.find? (fun u => u.email == e)

/-- The `{token, user: {id, username, email}}` success body shared by
register and login. -/
def authSuccessBody (token : String) (id : Nat) (username email : String) : JSValue :=
  .obj [("token", .str token),
        ("user", .obj [("id", .num (Int.ofNat id)),
                       ("username", .str username),
                       ("email", .str email)])]

/-- `POST /api/auth/register`: require truthy `username`, `email`,
`password`; insert the user row (the `UNIQUE` constraints make a
duplicate username or email raise error `23505`, mapped to 400);
on success sign a token for the new id and return it with the row. -/
def register (hash : JSValue → String) (sign : Nat → String)
    (db : DB) (body : JSValue) : Response × DB :=
  let username := body.getField "username"
  let email := body.getField "email"
  let password := body.getField "password"
  if !username.truthy || !email.truthy || !password.truthy then
    (⟨400, errorBody "All fields are required"⟩, db)
  else
    let uname := username.toSqlText.getD ""
    let em := email.toSqlText.getD ""
    if db.users.any (fun u => u.username == uname || u.email == em) then
      (⟨400, errorBody "Username or email already exists"⟩, db)
    else
      let row : UserRow := ⟨db.nextUserId, uname, em, hash password⟩
      (⟨200, authSuccessBody (sign row.id) row.id uname em⟩,
       { db with users := db.users ++ [row], nextUserId := db.nextUserId + 1 })

/-- `POST /api/auth/login`: look the user up by email; 401
`Invalid credentials` when no row matches, and again when
`bcrypt.compare` rejects the password; otherwise sign a token and
return it with `{id, username, email}`. -/
def login (verify : JSValue → String → Bool) (sign : Nat → String)
    (db : DB) (body : JSValue) : Response :=
  match findUserByEmail db ((body.getField "email").toSqlText) with
  | none => ⟨401, errorBody "Invalid credentials"⟩
  | some user =>
    if !(verify (body.getField "password") user.password_hash) then
      ⟨401, errorBody "Invalid credentials"⟩
    else
      ⟨200, authSuccessBody (sign user.id) user.id user.username user.email⟩

/-- JavaScript `s.split(c)` for a single-character separator: split at
every occurrence, keeping empty segments (`"".split(' ')` is `[""]`,
`"a  b".split(' ')` is `["a", "", "b"]`). -/
def splitOnChar (c : Char) : List Char → List String
  | [] => [""]
  | x :: xs =>
    let rest := splitOnChar c xs
    if x = c then "" :: rest
    else
      match rest with
      | [] => [String.singleton x]
      | r :: rs => (String.singleton x ++ r) :: rs

/-- `header.split(' ')[1]`: the second space-separated part of the
authorization header, `undefined` (`none`) when there is none. -/
def bearerPart (header : String) : Option String :=
  (splitOnChar ' ' header.toList).get? 1

/-- The auth gate: `req.headers.authorization?.split(' ')[1]` extracts
the token (missing header, or a header without a second space-separated
part, yields `undefined`; both `undefined` and `""` are falsy); then
`jwt.verify` resolves it to a user id or fails. -/
def authMiddleware (verifyToken : String → Option Nat)
    (authorization : Option String) : Except Response Nat :=
  let token : Option String := authorization.bind bearerPart
  match token with
  | none => .error ⟨401, errorBody "No token provided"⟩
  | some t =>
    if t = "" then .error ⟨401, errorBody "No token provided"⟩
    else
      match verifyToken t with
      | none => .error ⟨401, errorBody "Invalid token"⟩
      | some uid => .ok uid

/-- The `ORDER BY workout_timestamp DESC` comparison on the stored
`VARCHAR` column: `a` may precede `b` when `b`'s timestamp string is
lexically at most `a`'s. -/
def tsDesc (a b : WorkoutRow) : Prop :=
  b.workout_timestamp ≤ a.workout_timestamp

instance : DecidableRel tsDesc := fun a b =>
  inferInstanceAs (Decidable (b.workout_timestamp ≤ a.workout_timestamp))

instance : IsTotal WorkoutRow tsDesc :=
  ⟨fun a b => le_total b.workout_timestamp a.workout_timestamp⟩

instance : IsTrans WorkoutRow tsDesc :=
  ⟨fun _ _ _ hab hbc => le_trans hbc hab⟩

/-- `GET /api/workouts`:
`SELECT * FROM workouts WHERE user_id = $1 ORDER BY workout_timestamp DESC`. -/
def listWorkouts (db : DB) (uid : Nat) : List WorkoutRow :=
  List.insertionSort tsDesc (db.workouts.filter (fun w => w.user_id == uid))

/-- The row `INSERT INTO workouts ... RETURNING *` produces for a
request that passed validation and whose timestamp became the string
`ts`. -/
def newWorkoutRow (db : DB) (uid : Nat) (body : JSValue) (ts : String) : WorkoutRow :=
  ⟨db.nextWorkoutId, uid,
   (body.getField "exercise_id").toSqlText.getD "",
   (body.getField "exercise_name").toSqlText.getD "",
   jsonStringify (body.getField "sets"),
   ts⟩

/-- The JSON object a workout row serializes to in responses. -/
def workoutJson (w : WorkoutRow) : JSValue :=
  .obj [("id", .num (Int.ofNat w.id)),
        ("user_id", .num (Int.ofNat w.user_id)),
        ("exercise_id", .str w.exercise_id),
        ("exercise_name", .str w.exercise_name),
        ("sets_data", .str w.sets_data),
        ("workout_timestamp", .str w.workout_timestamp)]

/-- `POST /api/workouts`: 400 `Invalid workout data` when
`exercise_id`, `exercise_name` or `sets` is falsy or `sets` is not an
array; `workout_timestamp` is never validated, so an absent (or null)
timestamp reaches the insert as SQL `NULL`, violates the `NOT NULL`
constraint and surfaces as 500 `Failed to add workout`; otherwise the
row is inserted and echoed back. -/
def createWorkout (db : DB) (uid : Nat) (body : JSValue) : Response × DB :=
  let exercise_id := body.getField "exercise_id"
  let exercise_name := body.getField "exercise_name"
  let sets := body.getField "sets"
  if !exercise_id.truthy || !exercise_name.truthy || !sets.truthy || !sets.isArray then
    (⟨400, errorBody "Invalid workout data"⟩, db)
  else
    match (body.getField "workout_timestamp").toSqlText with
    | none => (⟨500, errorBody "Failed to add workout"⟩, db)
    | some ts =>
      let row := newWorkoutRow db uid body ts
      (⟨200, .obj [("workout", workoutJson row)]⟩,
       { db with workouts := db.workouts ++ [row], nextWorkoutId := db.nextWorkoutId + 1 })

/-- `DELETE /api/workouts/:id`:
`DELETE FROM workouts WHERE id = $1 AND user_id = $2 RETURNING *`;
404 `Workout not found` when no row matched. -/
def deleteWorkout (db : DB) (uid : Nat) (wid : Nat) : Response × DB :=
  let matched := db.workouts.filter (fun w => w.id == wid && w.user_id == uid)
  if matched.isEmpty then
    (⟨404, errorBody "Workout not found"⟩, db)
  else
    (⟨200, .obj [("message", .str "Workout deleted")]⟩,
     { db with workouts := db.workouts.filter (fun w => !(w.id == wid && w.user_id == uid)) })

/-! ### Concrete sample values, used by the witnesses -/

def exHash : JSValue → String := fun _ => "bcrypt-hash"

def exSign : Nat → String := fun n => "token-" ++ toString n

def exDB : DB :=
  ⟨[⟨1, "alice", "a@x.com", "h1"⟩],
   [⟨10, 1, "squat", "Squat", "[]", "2024-01-01T10:00:00"⟩], 2, 11⟩

def exBodyWorkout : JSValue :=
  .obj [("exercise_id", .str "squat"), ("exercise_name", .str "Squat"),
        ("sets", .arr [.obj [("reps", .num 5), ("weight", .num 100)]]),
        ("workout_timestamp", .str "2024-01-01T10:00:00")]

def exBodyWorkoutNoTs : JSValue :=
  .obj [("exercise_id", .str "squat"), ("exercise_name", .str "Squat"),
        ("sets", .arr [])]

def exBodyWorkoutNoId : JSValue :=
  .obj [("exercise_name", .str "Squat"), ("sets", .arr []),
        ("workout_timestamp", .str "2024-01-01T10:00:00")]

def exBodyWorkoutEmptyId : JSValue :=
  .obj [("exercise_id", .str ""), ("exercise_name", .str "Squat"),
        ("sets", .arr []), ("workout_timestamp", .str "2024-01-01T10:00:00")]

def exBodyRegisterEmptyUsername : JSValue :=
  .obj [("username", .str ""), ("email", .str "a@x.com"), ("password", .str "pw123456")]

/-! ### Shared helper lemmas -/

/-- An array is always truthy. -/
theorem JSValue.truthy_of_isArray {v : JSValue} (h : v.isArray = true) : v.truthy = true := by
  cases v <;> simp_all [JSValue.isArray, JSValue.truthy]

/-! ### Claims -/

/-- C5: a workout-creation request fails with 400 `Invalid workout data`
when `exercise_id`, `exercise_name` or `sets` is absent or `sets` is not
an array, and every 400 outcome leaves the store unchanged. -/
theorem createWorkout_validation_c5 (db : DB) (uid : Nat) (body : JSValue) :
    ((body.getField "exercise_id" = JSValue.undefined ∨
      body.getField "exercise_name" = JSValue.undefined ∨
      body.getField "sets" = JSValue.undefined ∨
      (body.getField "sets").isArray = false) →
      createWorkout db uid body = (⟨400, errorBody "Invalid workout data"⟩, db)) ∧
    ((createWorkout db uid body).fst.status = 400 → (createWorkout db uid body).snd = db) := by
  constructor
  · intro h
    unfold createWorkout
    rcases h with h | h | h | h
    · simp [h, JSValue.truthy]
    · simp [h, JSValue.truthy]
    · simp [h, JSValue.truthy]
    · simp [h]
  · simp only [createWorkout]
    cases hcond : (!(body.getField "exercise_id").truthy ||
        !(body.getField "exercise_name").truthy ||
        !(body.getField "sets").truthy || !(body.getField "sets").isArray)
    · cases hts : (body.getField "workout_timestamp").toSqlText <;> simp [hcond, hts]
    · simp [hcond]

/-- C5 witness: a body missing `exercise_id` is rejected with 400 and
the store is untouched. -/
theorem createWorkout_validation_c5_witness :
    createWorkout exDB 1 exBodyWorkoutNoId = (⟨400, errorBody "Invalid workout data"⟩, exDB) :=
  (createWorkout_validation_c5 exDB 1 exBodyWorkoutNoId).1 (Or.inl rfl)

/-- C9: a workout-creation request with valid `exercise_id`,
`exercise_name` and `sets` but an absent `workout_timestamp` passes
input validation and fails as 500 `Failed to add workout` (the `NOT
NULL` constraint on the timestamp column), not as a 400 validation
error. -/
theorem createWorkout_missingTimestamp_c9 (db : DB) (uid : Nat) (body : JSValue)
    (hid : (body.getField "exercise_id").truthy = true)
    (hname : (body.getField "exercise_name").truthy = true)
    (hsets : (body.getField "sets").isArray = true)
    (hts : body.getField "workout_timestamp" = JSValue.undefined) :
    createWorkout db uid body = (⟨500, errorBody "Failed to add workout"⟩, db) := by
  unfold createWorkout
  simp [hid, hname, hsets, JSValue.truthy_of_isArray hsets, hts, JSValue.toSqlText]

/-- C9 witness: a concrete valid body without `workout_timestamp` gets
500, not 400, and the store is untouched. -/
theorem createWorkout_missingTimestamp_c9_witness :
    createWorkout exDB 1 exBodyWorkoutNoTs = (⟨500, errorBody "Failed to add workout"⟩, exDB) :=
  createWorkout_missingTimestamp_c9 exDB 1 exBodyWorkoutNoTs rfl rfl rfl rfl

/-- C10: a required field that is present but equal to the empty string
is rejected exactly like an absent field — with the same 400 response
and an unchanged store — because validation tests JavaScript falsiness
(`""` is falsy), not key presence. -/
theorem emptyString_rejected_c10 (hash : JSValue → String) (sign : Nat → String)
    (db : DB) (uid : Nat) (body bodyW : JSValue) :
    ((body.getField "username" = JSValue.str "" ∨
      body.getField "email" = JSValue.str "" ∨
      body.getField "password" = JSValue.str "") →
      register hash sign db body = (⟨400, errorBody "All fields are required"⟩, db)) ∧
    ((bodyW.getField "exercise_id" = JSValue.str "" ∨
      bodyW.getField "exercise_name" = JSValue.str "" ∨
      bodyW.getField "sets" = JSValue.str "") →
      createWorkout db uid bodyW = (⟨400, errorBody "Invalid workout data"⟩, db)) := by
  constructor
  · intro h
    unfold register
    rcases h with h | h | h <;> simp [h, JSValue.truthy]
  · intro h
    unfold createWorkout
    rcases h with h | h | h <;> simp [h, JSValue.truthy, JSValue.isArray]

/-- C10 witness: an empty-string `username` on register and an
empty-string `exercise_id` on workout creation are both rejected with
400, store unchanged. -/
theorem emptyString_rejected_c10_witness :
    register exHash exSign exDB exBodyRegisterEmptyUsername =
      (⟨400, errorBody "All fields are required"⟩, exDB) ∧
    createWorkout exDB 1 exBodyWorkoutEmptyId =
      (⟨400, errorBody "Invalid workout data"⟩, exDB) :=
  ⟨(emptyString_rejected_c10 exHash exSign exDB 1 exBodyRegisterEmptyUsername exBodyWorkoutEmptyId).1
      (Or.inl rfl),
   (emptyString_rejected_c10 exHash exSign exDB 1 exBodyRegisterEmptyUsername exBodyWorkoutEmptyId).2
      (Or.inl rfl)⟩

def exVerifyNo : JSValue → String → Bool := fun _ _ => false

def exVerifyYes : JSValue → String → Bool := fun _ _ => true

def exVerifyToken : String → Option Nat := fun t => if t == "good" then some 1 else none

def exBodyLogin : JSValue :=
  .obj [("email", .str "a@x.com"), ("password", .str "pw123456")]

def exBodyLoginUnknown : JSValue :=
  .obj [("email", .str "b@x.com"), ("password", .str "pw")]

def exBodyRegisterDup : JSValue :=
  .obj [("username", .str "alice"), ("email", .str "x@y.com"), ("password", .str "pw")]

def exBodyRegisterFresh : JSValue :=
  .obj [("username", .str "bob"), ("email", .str "b@x.com"), ("password", .str "pw")]

/-- C3: login answers 401 with the very same `Invalid credentials` body
both when no user row matches the email and when password verification
fails, so the two causes are indistinguishable; on success it returns
a token and the user's id, username and email. -/
theorem login_uniform_invalidCredentials_c3 (verify : JSValue → String → Bool)
    (sign : Nat → String) (db : DB) (body : JSValue) :
    (findUserByEmail db ((body.getField "email").toSqlText) = none →
      login verify sign db body = ⟨401, errorBody "Invalid credentials"⟩) ∧
    (∀ u, findUserByEmail db ((body.getField "email").toSqlText) = some u →
      verify (body.getField "password") u.password_hash = false →
      login verify sign db body = ⟨401, errorBody "Invalid credentials"⟩) ∧
    (∀ u, findUserByEmail db ((body.getField "email").toSqlText) = some u →
      verify (body.getField "password") u.password_hash = true →
      login verify sign db body =
        ⟨200, authSuccessBody (sign u.id) u.id u.username u.email⟩) := by
  refine ⟨?_, ?_, ?_⟩
  · intro h; unfold login; simp [h]
  · intro u hu hv; unfold login; simp [hu, hv]
  · intro u hu hv; unfold login; simp [hu, hv]

/-- C3 witness: unknown email and failing verification produce the same
401 response on a concrete store; valid credentials produce the token
and user fields. -/
theorem login_uniform_invalidCredentials_c3_witness :
    login exVerifyNo exSign exDB exBodyLoginUnknown = ⟨401, errorBody "Invalid credentials"⟩ ∧
    login exVerifyNo exSign exDB exBodyLogin = ⟨401, errorBody "Invalid credentials"⟩ ∧
    login exVerifyYes exSign exDB exBodyLogin =
      ⟨200, authSuccessBody (exSign 1) 1 "alice" "a@x.com"⟩ :=
  ⟨(login_uniform_invalidCredentials_c3 exVerifyNo exSign exDB exBodyLoginUnknown).1 rfl,
   (login_uniform_invalidCredentials_c3 exVerifyNo exSign exDB exBodyLogin).2.1
     ⟨1, "alice", "a@x.com", "h1"⟩ rfl rfl,
   (login_uniform_invalidCredentials_c3 exVerifyYes exSign exDB exBodyLogin).2.2
     ⟨1, "alice", "a@x.com", "h1"⟩ rfl rfl⟩

/-- C4: registration returns 400 `All fields are required` with no row
inserted when username, email or password is falsy; 400 `Username or
email already exists` with no row inserted when the new username or
email collides with an existing row; and otherwise inserts the row and
returns 200 with a signed token and the new user's id, username and
email. -/
theorem register_spec_c4 (hash : JSValue → String) (sign : Nat → String)
    (db : DB) (body : JSValue) :
    (((body.getField "username").truthy = false ∨
      (body.getField "email").truthy = false ∨
      (body.getField "password").truthy = false) →
      register hash sign db body = (⟨400, errorBody "All fields are required"⟩, db)) ∧
    ((body.getField "username").truthy = true →
     (body.getField "email").truthy = true →
     (body.getField "password").truthy = true →
      (db.users.any (fun u =>
          u.username == (body.getField "username").toSqlText.getD "" ||
          u.email == (body.getField "email").toSqlText.getD "") = true →
        register hash sign db body =
          (⟨400, errorBody "Username or email already exists"⟩, db)) ∧
      (db.users.any (fun u =>
          u.username == (body.getField "username").toSqlText.getD "" ||
          u.email == (body.getField "email").toSqlText.getD "") = false →
        register hash sign db body =
          (⟨200, authSuccessBody (sign db.nextUserId) db.nextUserId
              ((body.getField "username").toSqlText.getD "")
              ((body.getField "email").toSqlText.getD "")⟩,
           { db with
              users := db.users ++
                [⟨db.nextUserId, (body.getField "username").toSqlText.getD "",
                  (body.getField "email").toSqlText.getD "",
                  hash (body.getField "password")⟩],
              nextUserId := db.nextUserId + 1 }))) := by
  constructor
  · intro h
    unfold register
    rcases h with h | h | h <;> simp [h]
  · intro h1 h2 h3
    constructor <;> intro hd <;> unfold register <;> simp [h1, h2, h3, hd]

/-- C4 witness: on a concrete store, an empty body is rejected 400, a
taken username is rejected 400 `Username or email already exists`, and
a fresh triple inserts the row and returns the token with id, username
and email. -/
theorem register_spec_c4_witness :
    register exHash exSign exDB (JSValue.obj []) =
      (⟨400, errorBody "All fields are required"⟩, exDB) ∧
    register exHash exSign exDB exBodyRegisterDup =
      (⟨400, errorBody "Username or email already exists"⟩, exDB) ∧
    register exHash exSign exDB exBodyRegisterFresh =
      (⟨200, authSuccessBody "token-2" 2 "bob" "b@x.com"⟩,
       ⟨[⟨1, "alice", "a@x.com", "h1"⟩, ⟨2, "bob", "b@x.com", "bcrypt-hash"⟩],
        [⟨10, 1, "squat", "Squat", "[]", "2024-01-01T10:00:00"⟩], 3, 11⟩) :=
  ⟨(register_spec_c4 exHash exSign exDB (JSValue.obj [])).1 (Or.inl rfl),
   ((register_spec_c4 exHash exSign exDB exBodyRegisterDup).2 rfl rfl rfl).1 rfl,
   ((register_spec_c4 exHash exSign exDB exBodyRegisterFresh).2 rfl rfl rfl).2 rfl⟩

/-- C7: the auth gate answers 401 `No token provided` when the
authorization header yields no bearer token (header absent, or without
a non-empty second space-separated part), 401 `Invalid token` when the
token is present but fails verification, and otherwise passes the
resolved user id on to the handler. -/
theorem authMiddleware_spec_c7 (verifyToken : String → Option Nat)
    (authorization : Option String) :
    ((authorization.bind bearerPart = none ∨ authorization.bind bearerPart = some "") →
      authMiddleware verifyToken authorization =
        .error ⟨401, errorBody "No token provided"⟩) ∧
    (∀ t, authorization.bind bearerPart = some t → t ≠ "" → verifyToken t = none →
      authMiddleware verifyToken authorization =
        .error ⟨401, errorBody "Invalid token"⟩) ∧
    (∀ t uid, authorization.bind bearerPart = some t → t ≠ "" → verifyToken t = some uid →
      authMiddleware verifyToken authorization = .ok uid) := by
  refine ⟨?_, ?_, ?_⟩
  · intro h
    unfold authMiddleware
    rcases h with h | h <;> simp [h]
  · intro t ht hne hv
    unfold authMiddleware
    simp [ht, hne, hv]
  · intro t uid ht hne hv
    unfold authMiddleware
    simp [ht, hne, hv]

/-- C7 witness: with a concrete verifier, a missing header gives 401
`No token provided`, a bad bearer token gives 401 `Invalid token`, and
a good one resolves to the user id. -/
theorem authMiddleware_spec_c7_witness :
    authMiddleware exVerifyToken none = .error ⟨401, errorBody "No token provided"⟩ ∧
    authMiddleware exVerifyToken (some "Bearer bad") =
      .error ⟨401, errorBody "Invalid token"⟩ ∧
    authMiddleware exVerifyToken (some "Bearer good") = .ok 1 :=
  ⟨(authMiddleware_spec_c7 exVerifyToken none).1 (Or.inl rfl),
   (authMiddleware_spec_c7 exVerifyToken (some "Bearer bad")).2.1 "bad" rfl
     (by decide) rfl,
   (authMiddleware_spec_c7 exVerifyToken (some "Bearer good")).2.2 "good" 1 rfl
     (by decide) rfl⟩

/-! ### Shared lemmas about the workout repository -/

/-- A row appears in the list operation's result exactly when it is a
stored row owned by the requesting user. -/
theorem mem_listWorkouts {db : DB} {uid : Nat} {w : WorkoutRow} :
    w ∈ listWorkouts db uid ↔ w ∈ db.workouts ∧ w.user_id = uid := by
  unfold listWorkouts
  rw [(List.perm_insertionSort tsDesc _).mem_iff, List.mem_filter]
  simp

/-- When some stored row has the requested id and the caller's user id,
the delete removes every such row and reports success. -/
theorem deleteWorkout_found {db : DB} {uid wid : Nat}
    (h : ∃ w ∈ db.workouts, w.id = wid ∧ w.user_id = uid) :
    deleteWorkout db uid wid =
      (⟨200, JSValue.obj [("message", JSValue.str "Workout deleted")]⟩,
       { db with workouts :=
          db.workouts.filter (fun w => !(w.id == wid && w.user_id == uid)) }) := by
  obtain ⟨w, hw, hid, huid⟩ := h
  have hmem : w ∈ db.workouts.filter (fun w => w.id == wid && w.user_id == uid) :=
    List.mem_filter.2 ⟨hw, by simp [hid, huid]⟩
  have hne : (db.workouts.filter (fun w => w.id == wid && w.user_id == uid)).isEmpty = false := by
    rcases hfe : db.workouts.filter (fun w => w.id == wid && w.user_id == uid) with _ | ⟨a, l⟩
    · rw [hfe] at hmem
      exact absurd hmem (List.not_mem_nil w)
    · rw [hfe]
      rfl
  unfold deleteWorkout
  simp [hne]

/-- When no stored row has both the requested id and the caller's user
id, the delete answers 404 and leaves the store unchanged. -/
theorem deleteWorkout_notFound {db : DB} {uid wid : Nat}
    (h : ∀ w ∈ db.workouts, ¬(w.id = wid ∧ w.user_id = uid)) :
    deleteWorkout db uid wid = (⟨404, errorBody "Workout not found"⟩, db) := by
  have hfil : db.workouts.filter (fun w => w.id == wid && w.user_id == uid) = [] := by
    rw [List.filter_eq_nil_iff]
    intro w hw hpw
    exact h w hw (by simpa using hpw)
  unfold deleteWorkout
  simp [hfil]

/-- C1: reads and deletes are scoped to the caller's rows — for
distinct users `u1 ≠ u2`, every row in `u2`'s list is owned by `u2`
(so never by `u1`), and `u2` deleting an id whose stored rows all
belong to `u1` gets 404 with the store unchanged. -/
theorem userIsolation_c1 (db : DB) (u1 u2 : Nat) (hne : u1 ≠ u2) :
    (∀ w ∈ listWorkouts db u2, w.user_id = u2 ∧ w.user_id ≠ u1) ∧
    (∀ wid : Nat, (∀ w ∈ db.workouts, w.id = wid → w.user_id = u1) →
      deleteWorkout db u2 wid = (⟨404, errorBody "Workout not found"⟩, db)) := by
  constructor
  · intro w hw
    have huid : w.user_id = u2 := (mem_listWorkouts.1 hw).2
    constructor
    · exact huid
    · omega
  · intro wid hall
    apply deleteWorkout_notFound
    intro w hw hc
    exact hne ((hall w hw hc.1).symm.trans hc.2)

/-- C1 witness: on a concrete store whose only workout (id 10) belongs
to user 1, user 2's delete of id 10 answers 404 and changes nothing. -/
theorem userIsolation_c1_witness :
    deleteWorkout exDB 2 10 = (⟨404, errorBody "Workout not found"⟩, exDB) :=
  (userIsolation_c1 exDB 1 2 (by decide)).2 10 (by decide)

/-- C2: the list operation returns exactly the caller's stored rows,
ordered descending by the stored `workout_timestamp` value under the
lexical (string) order — `tsDesc` compares the stored strings with
`≤` on `String`, not any parsed datetime. -/
theorem listWorkouts_sorted_c2 (db : DB) (uid : Nat) :
    (listWorkouts db uid).Sorted tsDesc ∧
    (listWorkouts db uid).Perm (db.workouts.filter (fun w => w.user_id == uid)) :=
  ⟨List.sorted_insertionSort tsDesc _, List.perm_insertionSort tsDesc _⟩

/-- C6: delete removes a row exactly when a stored row has the
requested id and the caller's user id; otherwise — unknown id or an id
owned by another user alike — it answers 404 and leaves the store
unchanged. -/
theorem deleteWorkout_spec_c6 (db : DB) (uid wid : Nat) :
    ((∃ w ∈ db.workouts, w.id = wid ∧ w.user_id = uid) →
      (deleteWorkout db uid wid).fst =
        ⟨200, JSValue.obj [("message", JSValue.str "Workout deleted")]⟩ ∧
      (deleteWorkout db uid wid).snd =
        { db with workouts :=
            db.workouts.filter (fun w => !(w.id == wid && w.user_id == uid)) }) ∧
    ((¬∃ w ∈ db.workouts, w.id = wid ∧ w.user_id = uid) →
      deleteWorkout db uid wid = (⟨404, errorBody "Workout not found"⟩, db)) := by
  constructor
  · intro h
    rw [deleteWorkout_found h]
    exact ⟨rfl, rfl⟩
  · intro h
    exact deleteWorkout_notFound (fun w hw hc => h ⟨w, hw, hc⟩)

/-- C6 witness: the owner's delete of the concrete row (id 10, user 1)
succeeds and removes it from the store. -/
theorem deleteWorkout_spec_c6_witness :
    (deleteWorkout exDB 1 10).fst =
      ⟨200, JSValue.obj [("message", JSValue.str "Workout deleted")]⟩ ∧
    (deleteWorkout exDB 1 10).snd = ⟨[⟨1, "alice", "a@x.com", "h1"⟩], [], 2, 11⟩ :=
  ⟨((deleteWorkout_spec_c6 exDB 1 10).1 (by decide)).1,
   ((deleteWorkout_spec_c6 exDB 1 10).1 (by decide)).2⟩

/-- C8: creating a valid workout answers 200 echoing the stored row
(timestamp verbatim), the row then appears in the owner's list; the
owner's delete of its id succeeds and the row no longer appears in the
list; and a user with no stored workouts gets the empty sequence from
list, not an error. -/
theorem create_list_delete_roundtrip_c8 (db : DB) (uid : Nat) (body : JSValue) (ts : String)
    (hid : (body.getField "exercise_id").truthy = true)
    (hname : (body.getField "exercise_name").truthy = true)
    (hsets : (body.getField "sets").isArray = true)
    (hts : (body.getField "workout_timestamp").toSqlText = some ts) :
    (createWorkout db uid body).fst =
      ⟨200, JSValue.obj [("workout", workoutJson (newWorkoutRow db uid body ts))]⟩ ∧
    newWorkoutRow db uid body ts ∈ listWorkouts (createWorkout db uid body).snd uid ∧
    (newWorkoutRow db uid body ts).workout_timestamp = ts ∧
    (deleteWorkout (createWorkout db uid body).snd uid db.nextWorkoutId).fst =
      ⟨200, JSValue.obj [("message", JSValue.str "Workout deleted")]⟩ ∧
    newWorkoutRow db uid body ts ∉
      listWorkouts (deleteWorkout (createWorkout db uid body).snd uid db.nextWorkoutId).snd uid ∧
    (∀ db2 : DB, ∀ u : Nat,
      db2.workouts.filter (fun w => w.user_id == u) = [] → listWorkouts db2 u = []) := by
  have hstruthy := JSValue.truthy_of_isArray hsets
  have hcw : createWorkout db uid body =
      (⟨200, JSValue.obj [("workout", workoutJson (newWorkoutRow db uid body ts))]⟩,
       { db with
          workouts := db.workouts ++ [newWorkoutRow db uid body ts],
          nextWorkoutId := db.nextWorkoutId + 1 }) := by
    unfold createWorkout
    simp [hid, hname, hsets, hstruthy, hts]
  have hex : ∃ w ∈ (createWorkout db uid body).snd.workouts,
      w.id = db.nextWorkoutId ∧ w.user_id = uid := by
    refine ⟨newWorkoutRow db uid body ts, ?_, rfl, rfl⟩
    rw [hcw]
    exact List.mem_append_right _ (List.mem_singleton.2 rfl)
  have hdel := deleteWorkout_found hex
  refine ⟨?_, ?_, rfl, ?_, ?_, ?_⟩
  · rw [hcw]
  · rw [hcw]
    exact mem_listWorkouts.2 ⟨List.mem_append_right _ (List.mem_singleton.2 rfl), rfl⟩
  · rw [hdel]
  · intro hx
    have h1 := (mem_listWorkouts.1 hx).1
    rw [hdel] at h1
    have h2 := (List.mem_filter.1 h1).2
    simp [newWorkoutRow] at h2
  · intro db2 u hf
    unfold listWorkouts
    rw [hf]
    rfl

/-- C8 witness: on a concrete store, the created row is listed, then
deleting it delists it, and a user with no rows gets the empty list. -/
theorem create_list_delete_roundtrip_c8_witness :
    newWorkoutRow exDB 1 exBodyWorkout "2024-01-01T10:00:00" ∈
      listWorkouts (createWorkout exDB 1 exBodyWorkout).snd 1 ∧
    newWorkoutRow exDB 1 exBodyWorkout "2024-01-01T10:00:00" ∉
      listWorkouts
        (deleteWorkout (createWorkout exDB 1 exBodyWorkout).snd 1 exDB.nextWorkoutId).snd 1 ∧
    listWorkouts exDB 99 = [] := by
  have h := create_list_delete_roundtrip_c8 exDB 1 exBodyWorkout "2024-01-01T10:00:00"
    rfl rfl rfl rfl
  exact ⟨h.2.1, h.2.2.2.2.1, h.2.2.2.2.2 exDB 99 rfl⟩
